import Mathlib

/-!
Verification development for the tk-krita engine (a Shotgun/Toolkit engine
for Krita).  The Python sources under `engine.py`, `startup.py`,
`startup/init.py` and the hook files under `hooks/` are shallowly embedded:
pure fragments become Lean functions, host state (active document, batch
mode flag, timers, filesystem) is passed explicitly, and raised Python
exceptions become `Except` values.
-/

namespace TkKrita

/-- The engine name constant `ENGINE_NAME = "tk-krita"` (engine.py,
startup.py, startup/init.py). -/
def ENGINE_NAME : String := "tk-krita"

/-- Rectangle returned by Krita's `Node.bounds()` (a `QRect`). -/
structure Bounds where
  x : Int
  y : Int
  w : Int
  h : Int
deriving DecidableEq, Repr

/-- The slice of Krita's `Document` scripting object that the embedded hooks
read: `fileName()`, `modified()`, `width()`, `height()`,
`fullClipRangeStartTime()`, `fullClipRangeEndTime()` and the root node's
bounds `rootNode().bounds()`.  Krita returns `""` from `fileName()` for a
document that has never been saved. -/
structure Document where
  fileName : String
  modified : Bool
  width : Int
  height : Int
  fullClipRangeStartTime : Int
  fullClipRangeEndTime : Int
  rootBounds : Bounds
deriving DecidableEq, Repr

/-- The kinds of exception the embedded code raises.  `tankError` is
`sgtk.TankError`, the external pipeline framework's error type (imported as
`from sgtk import TankError` in the hooks); `pyException` is Python's
builtin `Exception`; `nameError` is a `NameError` on an undefined variable;
`notImplementedError` is `NotImplementedError`. -/
inductive RaisedError where
  | tankError (msg : String)
  | pyException (msg : String)
  | nameError (missingName : String)
  | notImplementedError
deriving DecidableEq, Repr

/-- `True` exactly for the pipeline framework's error type `TankError`. -/
def RaisedError.isTankError : RaisedError → Bool
  | .tankError _ => true
  | _ => false

/-! ### C1: the active-document polling timer (engine.py) -/

/-- State of the engine's `QTimer` (`self.active_doc_timer`): either stopped
or started with a repeat interval in milliseconds. -/
inductive TimerState where
  | stopped
  | started (intervalMs : Nat)
deriving DecidableEq, Repr

/-- The part of `KritaEngine` state that the timer callback touches: the
document recorded at the previous check (`self.active_doc`, initialised to
`None` in `init_engine`).  Documents are identified by host object
identity, embedded as `Option Nat` (`none` = Python `None`). -/
structure EngineDocState where
  active_doc : Option Nat
deriving DecidableEq, Repr

/-- `KritaEngine._on_active_doc_timer` (engine.py lines 600-608):
reads `krita.Krita.instance().activeDocument()` (here `hostActive`);
if it differs from `self.active_doc`, records it and calls
`refresh_engine()`.  Returns the new state and whether `refresh_engine()`
was called. -/
def on_active_doc_timer (hostActive : Option Nat) (st : EngineDocState) :
    EngineDocState × Bool :=
  if st.active_doc ≠ hostActive then
    ({ active_doc := hostActive }, true)
  else
    (st, false)

/-- `KritaEngine.__set_active_document_context_switch` (engine.py lines
734-749), restricted to its effect on the timer: `if not value:
self.active_doc_timer.stop()` else `self.active_doc_timer.start(1000)`. -/
def set_active_document_context_switch (value : Bool) (_timer : TimerState) :
    TimerState :=
  if !value then TimerState.stopped else TimerState.started 1000

/-! ### C5: get_frame_range (hooks/tk-multi-setframerange) -/

/-- `FrameOperation.get_frame_range`
(hooks/tk-multi-setframerange/frame_operations_tk-krita.py lines 32-49):
`current_in`/`current_out` start at `0`; when a document is active they are
replaced by `int(active_doc.fullClipRangeStartTime())` and
`int(active_doc.fullClipRangeEndTime())` (the `int(...)` conversion is the
identity on the host's integer clip times); the pair is returned. -/
def get_frame_range (active_doc : Option Document) : Int × Int :=
  match active_doc with
  | some d => (d.fullClipRangeStartTime, d.fullClipRangeEndTime)
  | none => (0, 0)

/-! ### C6: scene operation 'current_path' (workfiles2 and snapshot hooks) -/

/-- Return value of the scene-operation `execute` hooks: a Python string,
boolean, or `None`. -/
inductive OpResult where
  | str (s : String)
  | boolean (b : Bool)
  | nothing
deriving DecidableEq, Repr

/-- `SceneOperation.execute` of
hooks/tk-multi-workfiles2/scene_operation_tk-krita.py, restricted to its
return value (the side effects of the `open`/`save`/`save_as`/`reset`/
`prepare_new` branches on the host are elided; only what each branch
returns is kept): `current_path` returns the active document's
`fileName()` or `None`; `reset` and `prepare_new` return `True`; every
other branch falls off the end and returns `None`. -/
def execute_workfiles (operation : String) (active_doc : Option Document) :
    OpResult :=
  if operation = "current_path" then
    match active_doc with
    | some d => OpResult.str d.fileName
    | none => OpResult.nothing
  else if operation = "reset" then OpResult.boolean true
  else if operation = "prepare_new" then OpResult.boolean true
  else OpResult.nothing

/-- `SceneOperation.execute` of
hooks/tk-multi-snapshot/scene_operation_tk-krita.py, restricted to its
return value: `current_path` returns the active document's `fileName()` or
`None`; the only other branches (`open`, `save`) fall off the end and
return `None`. -/
def execute_snapshot (operation : String) (active_doc : Option Document) :
    OpResult :=
  if operation = "current_path" then
    match active_doc with
    | some d => OpResult.str d.fileName
    | none => OpResult.nothing
  else OpResult.nothing

/-! ### C2: session_validate of the two publish plugins -/

/-- `KritaSessionPublishPlugin.session_validate`
(hooks/tk-multi-publish2/basic/publish_session.py lines 279-297 ff.).
`_session_document()` returns `Krita.instance().activeDocument()` (here the
`document` argument).  If there is no document, it logs and raises the
builtin `Exception` with the "no active document" message; if
`document.fileName()` is falsy (never saved), it logs and raises the
builtin `Exception` with the "has not been saved" message; a modified
document only produces a warning and validation proceeds. -/
def session_validate_session (document : Option Document) :
    Except RaisedError Unit :=
  match document with
  | none =>
    Except.error (RaisedError.pyException
      "There is no active document opened in Krita. Publishing Canceled.")
  | some d =>
    if d.fileName = "" then
      Except.error (RaisedError.pyException
        "The Krita session has not been saved. Please save your session before publishing.")
    else
      Except.ok ()

/-- `KritaLayerPublishPlugin.session_validate`
(hooks/tk-multi-publish2/basic/publish_layer.py lines 404-445): its body is
textually identical to the session plugin's up to the point where either
exception is raised. -/
def session_validate_layer (document : Option Document) :
    Except RaisedError Unit :=
  match document with
  | none =>
    Except.error (RaisedError.pyException
      "There is no active document opened in Krita. Publishing Canceled.")
  | some d =>
    if d.fileName = "" then
      Except.error (RaisedError.pyException
        "The Krita session has not been saved. Please save your session before publishing.")
    else
      Except.ok ()

/-- `True` when the `Except` value embeds a raise of the pipeline
framework's error type `TankError`. -/
def raisesFrameworkError (r : Except RaisedError Unit) : Bool :=
  match r with
  | .error e => e.isTankError
  | .ok _ => false

/-! ### C4: _export_layer version-dependent save signature -/

/-- A fresh `InfoObject()` constructed by the export call.  The Krita
`InfoObject` carries no data the embedded code reads. -/
structure InfoObject where
deriving DecidableEq, Repr

/-- The invocation of `node.save(...)` performed by `_export_layer`: either
the three-argument form or the five-argument form. -/
inductive SaveCall where
  | threeArgs (path : String) (width height : Int)
  | fiveArgs (path : String) (width height : Int) (info : InfoObject)
      (bounds : Bounds)
deriving DecidableEq, Repr

/-- `_export_layer` of both `KritaLayerPublishPlugin`
(publish_layer.py lines 514-531) and `KritaSessionPublishPlugin`
(publish_session.py lines 248-265); the two bodies are identical.
`active_doc_bounds = active_doc.rootNode().bounds()` is read first; then
`is_version_older(krita_app.version(), "4.2.0")` — a comparison performed
by the external sgtk framework, embedded here as its boolean result
`versionOlderThan420` — selects between
`node.save(path, active_doc.width(), active_doc.height())` and
`node.save(path, active_doc.width(), active_doc.height(), InfoObject(),
active_doc_bounds)`. -/
def export_layer (versionOlderThan420 : Bool) (exportLayerPath : String)
    (active_doc : Document) : SaveCall :=
  let active_doc_bounds := active_doc.rootBounds
  if versionOlderThan420 then
    SaveCall.threeArgs exportLayerPath active_doc.width active_doc.height
  else
    SaveCall.fiveArgs exportLayerPath active_doc.width active_doc.height
      InfoObject.mk active_doc_bounds

/-! ### C10: the _batch_mode context manager -/

/-- The `_batch_mode(state)` context manager (publish_layer.py lines 30-42;
an identical copy exists in publish_session.py): it reads `current_state =
krita_app.batchmode()`, calls `krita_app.setBatchmode(state)`, yields to
the body, and in a `finally` block calls
`krita_app.setBatchmode(current_state)` — so the restore also happens when
the body raises.  The host's batch flag is threaded explicitly: `b0` is the
flag on entry, `body` maps the flag it runs under to its outcome (a raise
is `Except.error`) together with the flag it leaves behind, and the result
is the body's outcome paired with the final flag. -/
def batch_mode (state : Bool) (b0 : Bool)
    (body : Bool → Except RaisedError Unit × Bool) :
    Except RaisedError Unit × Bool :=
  let current_state := b0
  let flagDuringBody := state
  let r := body flagDuringBody
  (r.1, current_state)

/-! ### C3 / C9: launcher environment and host-side startup -/

/-- An environment, embedded as an association list of variable/value
pairs (insertion order preserved, keys looked up first-match). -/
abbrev Env := List (String × String)

/-- First-match lookup in an environment (`os.environ.get(name)`). -/
def lookupEnv : Env → String → Option String
  | [], _ => none
  | (k, v) :: rest, name => if k = name then some v else lookupEnv rest name

/-- The `sgtk.platform.LaunchInformation` value `prepare_launch` returns:
the executable path and the prepared environment. -/
structure LaunchInformation where
  path : String
  environ : Env
deriving DecidableEq, Repr

/-- `KritaLauncher.EXECUTABLE_TEMPLATES` (startup.py lines 129-137): the
executable template strings per operating system. -/
def EXECUTABLE_TEMPLATES : List (String × List String) :=
  [("darwin", ["$KRITA_BIN", "/Applications/krita/Krita/Krita.app"]),
   ("win32",
    ["$KRITA_BIN",
     "C:/Program Files/Krita \x7bplatform_version\x7d/bin/krita.exe",
     "C:/Program Files \x7bplatform\x7d/Krita \x7bplatform_version\x7d/bin/krita.exe"]),
   ("linux", ["$KRITA_BIN", "/usr/bin/krita"])]

/-- `KritaLauncher.prepare_launch` (startup.py lines 139-181).  It builds
`required_env` in source order: `SGTK_KRITA_ENGINE_STARTUP` (the engine's
`startup/init.py` path, backslashes replaced), `SGTK_ENGINE = ENGINE_NAME`,
`SGTK_CONTEXT = sgtk.context.serialize(self.context)` (the serialisation is
performed by the external framework and arrives here as the string
`serializedContext`), `SGTK_MODULE_PATH` and `__COMPAT_LAYER`, plus
`SGTK_FILE_TO_OPEN` when a file to open was supplied.  Then `sys.platform
== "win32"` selects the user plugin path, any other platform raises
`NotImplementedError`; finally (after copying the extension scripts and a
`chdir`, elided) it returns `LaunchInformation(path=exec_path,
environ=required_env)`. -/
def prepare_launch (startupPath sgtkModulePath serializedContext : String)
    (platform : String) (exec_path : String) (file_to_open : Option String) :
    Except RaisedError LaunchInformation :=
  let required_env : Env :=
    [("SGTK_KRITA_ENGINE_STARTUP", startupPath),
     ("SGTK_ENGINE", ENGINE_NAME),
     ("SGTK_CONTEXT", serializedContext),
     ("SGTK_MODULE_PATH", sgtkModulePath),
     ("__COMPAT_LAYER", "")]
  let required_env :=
    match file_to_open with
    | some f => required_env ++ [("SGTK_FILE_TO_OPEN", f)]
    | none => required_env
  if platform = "win32" then
    Except.ok { path := exec_path, environ := required_env }
  else
    Except.error RaisedError.notImplementedError

/-- A deserialized Toolkit context (`sgtk.context.deserialize`); its
contents are owned by the external framework, only its identity matters
here. -/
structure Context where
  ctxId : Nat
deriving DecidableEq, Repr

/-- Outcome of `start_toolkit_classic`: either the call
`sgtk.platform.start_engine(env_engine, context.sgtk, context)` was reached
(an engine is started), or the function returned early after displaying an
error message and no engine was started. -/
inductive StartOutcome where
  | engineStarted (engineName : String) (ctx : Context)
  | noEngine (errorMessage : String)
deriving DecidableEq, Repr

/-- `start_toolkit_classic` (startup/init.py lines 45-91).
`os.environ.get("SGTK_ENGINE")` is checked with `if not env_engine` (so a
missing variable and an empty value both fail), then
`os.environ.get("SGTK_CONTEXT")` likewise; then
`sgtk.context.deserialize(env_context)` — external, embedded as the
`deserialize` oracle, `none` meaning it raised — is attempted; each failure
displays an error message and returns without starting an engine.
Otherwise `sgtk.platform.start_engine` is called with the engine name and
the deserialized context (the truncated error text stands for the message
built with the formatted exception details). -/
def start_toolkit_classic (env : Env)
    (deserialize : String → Option Context) : StartOutcome :=
  match lookupEnv env "SGTK_ENGINE" with
  | none =>
    StartOutcome.noEngine
      "Shotgun: Missing required environment variable SGTK_ENGINE."
  | some env_engine =>
    if env_engine = "" then
      StartOutcome.noEngine
        "Shotgun: Missing required environment variable SGTK_ENGINE."
    else
      match lookupEnv env "SGTK_CONTEXT" with
      | none =>
        StartOutcome.noEngine
          "Shotgun: Missing required environment variable SGTK_CONTEXT."
      | some env_context =>
        if env_context = "" then
          StartOutcome.noEngine
            "Shotgun: Missing required environment variable SGTK_CONTEXT."
        else
          match deserialize env_context with
          | none =>
            StartOutcome.noEngine
              "Shotgun: Could not create context! Shotgun Pipeline Toolkit will be disabled."
          | some context => StartOutcome.engineStarted env_engine context

/-- `True` when the outcome started an engine. -/
def StartOutcome.isStarted : StartOutcome → Bool
  | .engineStarted _ _ => true
  | .noEngine _ => false

/-! ### C8: get_export_path and the undefined session_path_dir -/

/-- Python truthiness of an optional string: `None` and `""` are falsy. -/
def pyTruthy : Option String → Bool
  | none => false
  | some s => s ≠ ""

/-- `KritaLayerPublishPlugin.get_export_path` (publish_layer.py lines
324-370).  `item.get_property("export_path")` is the cached value
`cached`; if truthy it is returned.  Otherwise
`get_export_template`/`get_path_from_work_template` run — external
template machinery embedded as `templateResult`: `Except.error` when
`get_export_template` raises `TankError` (missing template in
templates.yml), otherwise the resolved path or `None`.  When the resolved
path is falsy, the default-path branch computes `node_name`,
`session_path`, `session_dir`, `session_filename`,
`session_filename_file`, `default_extension` and `layer_name`, and then
evaluates `os.path.join(session_path_dir, "layers", ...)` — but
`session_path_dir` is bound nowhere in the function (the split produced
`session_dir`), so Python raises `NameError` at that point and nothing is
returned or cached. -/
def get_export_path (cached : Option String)
    (templateResult : Except RaisedError (Option String)) :
    Except RaisedError String :=
  if pyTruthy cached then
    Except.ok (cached.getD "")
  else
    match templateResult with
    | .error e => Except.error e
    | .ok resolved =>
      if pyTruthy resolved then
        Except.ok (resolved.getD "")
      else
        Except.error (RaisedError.nameError "session_path_dir")

/-! ### C7: copytree_multi (startup.py lines 36-96)

The filesystem is embedded as a tree: a file carries its SHA-256 digest
(`sha256`/`samefile` in startup.py compare nothing but digests, so the
digest — an abstract `Nat` — is all the model needs of a file's contents),
a directory carries its named entries in `os.listdir` order.  Side effects
are recorded as an action trace.  `symlinks` is `False` at the only call
site (`ensure_scripts_up_to_date` passes the default) and the tree has no
symlink nodes, so the `os.path.islink` branch is dead and elided. -/

/-- A file-system subtree: a file (identified by its SHA-256 digest) or a
directory with named entries. -/
inductive FSTree where
  | file (digest : Nat)
  | dir (entries : List (String × FSTree))
deriving Repr

/-- One entry of the `errors` list accumulated by `copytree_multi`: the
`(srcname, dstname, str(why))` triple appended when a per-file operation
raises. -/
structure CopyErr where
  srcname : String
  dstname : String
  why : String
deriving DecidableEq, Repr

/-- A mutating filesystem call performed by `copytree_multi`. -/
inductive FSAct where
  | makedirs (p : String)
  | copy2 (s d : String)
  | unlink (p : String)
deriving DecidableEq, Repr

/-- `os.path.join` on the embedded paths. -/
def pjoin (a b : String) : String := a ++ "/" ++ b

/-- Look up a named entry of a directory (first match). -/
def lookupEntry : List (String × FSTree) → String → Option FSTree
  | [], _ => none
  | (k, v) :: rest, name => if k = name then some v else lookupEntry rest name

/-- Write a named entry of a directory: replace the first existing binding
or append a new one. -/
def setEntry : List (String × FSTree) → String → FSTree → List (String × FSTree)
  | [], name, t => [(name, t)]
  | (k, v) :: rest, name, t =>
    if k = name then (name, t) :: rest else (k, v) :: setEntry rest name t

mutual

/-- `copytree_multi(src, dst, symlinks=False, ignore)` (startup.py lines
50-96).  `os.listdir(src)` fails on a file (`NotADirectoryError`); the
ignore callable, when given, is applied to `src` and the listed names;
`if not os.path.isdir(dst): os.makedirs(dst)` creates a missing
destination directory and raises `FileExistsError` when `dst` exists as a
file; then the per-name loop runs (see `processEntries`) and the walk's
result is the updated destination, the accumulated `errors` list and the
action trace.  The final `shutil.copystat(src, dst)` copies metadata only
and is elided (the tree carries none).  The `raise shutil.Error(errors)`
performed at the end when `errors` is non-empty is modelled by
`copytree_multi_call`. -/
def copytree_multi (srcPath dstPath : String) (src : FSTree)
    (dst : Option FSTree)
    (ignore : Option (String → List String → List String)) :
    Except CopyErr (FSTree × List CopyErr × List FSAct) :=
  match src with
  | .file _ => Except.error ⟨srcPath, dstPath, "NotADirectoryError: os.listdir"⟩
  | .dir entries =>
    match dst with
    | some (.file _) =>
      Except.error ⟨srcPath, dstPath, "FileExistsError: os.makedirs"⟩
    | _ =>
      let dstEntries : List (String × FSTree) :=
        match dst with
        | some (.dir es) => es
        | _ => []
      let mkActs : List FSAct :=
        match dst with
        | some (.dir _) => []
        | _ => [FSAct.makedirs dstPath]
      let ignored_names : List String :=
        match ignore with
        | some f => f srcPath (entries.map Prod.fst)
        | none => []
      let r := processEntries srcPath dstPath ignore entries ignored_names
        dstEntries
      Except.ok (FSTree.dir r.1, r.2.1, mkActs ++ r.2.2)
termination_by sizeOf src

/-- The body of `copytree_multi`'s `for name in names` loop, folded over
the remaining names.  An ignored name is skipped.  A source directory
recurses (a raise from the nested `os.makedirs`/`os.listdir` is caught by
`except (IOError, os.error)` and appended as one error; a nested
`shutil.Error` is caught and its error list extended onto `errors`).  A
source file is copied with `shutil.copy2` when `dstname` does not exist;
when it exists, `samefile` compares SHA-256 digests — equal digests skip
the copy, different digests `os.unlink` then `copy2`; when `dstname` is a
directory, `sha256(dstname)` raises `IsADirectoryError`, caught and
appended as one error.  Errors never abort the loop: the remaining names
are always processed and later errors are appended after earlier ones. -/
def processEntries (srcPath dstPath : String)
    (ignore : Option (String → List String → List String))
    (names : List (String × FSTree)) (ignored_names : List String)
    (des : List (String × FSTree)) :
    List (String × FSTree) × List CopyErr × List FSAct :=
  match names with
  | [] => (des, [], [])
  | (name, t) :: rest =>
    if name ∈ ignored_names then
      processEntries srcPath dstPath ignore rest ignored_names des
    else
      let srcname := pjoin srcPath name
      let dstname := pjoin dstPath name
      let step : List (String × FSTree) × List CopyErr × List FSAct :=
        match t with
        | .dir subEntries =>
          match copytree_multi srcname dstname (FSTree.dir subEntries)
            (lookupEntry des name) ignore with
          | .error e => (des, [e], [])
          | .ok (sub, subErrs, subActs) =>
            (setEntry des name sub, subErrs, subActs)
        | .file d =>
          match lookupEntry des name with
          | none =>
            (setEntry des name (FSTree.file d), [],
             [FSAct.copy2 srcname dstname])
          | some (.file dDst) =>
            if dDst = d then (des, [], [])
            else
              (setEntry des name (FSTree.file d), [],
               [FSAct.unlink dstname, FSAct.copy2 srcname dstname])
          | some (.dir _) =>
            (des, [⟨srcname, dstname, "IsADirectoryError: sha256"⟩], [])
      let r := processEntries srcPath dstPath ignore rest ignored_names
        step.1
      (r.1, step.2.1 ++ r.2.1, step.2.2 ++ r.2.2)
termination_by sizeOf names

end

/-- The observable outcome of one call to `copytree_multi` in Python:
an immediate `NotADirectoryError`/`FileExistsError` propagates as raised
(`Sum.inl`), and after a completed walk `if errors: raise
shutil.Error(errors)` raises the accumulated list as one error
(`Sum.inr`); otherwise the copy succeeds. -/
def copytree_multi_call (srcPath dstPath : String) (src : FSTree)
    (dst : Option FSTree)
    (ignore : Option (String → List String → List String)) :
    Except (Sum CopyErr (List CopyErr)) (FSTree × List FSAct) :=
  match copytree_multi srcPath dstPath src dst ignore with
  | .error e => Except.error (Sum.inl e)
  | .ok (t, errs, acts) =>
    if errs = [] then Except.ok (t, acts) else Except.error (Sum.inr errs)

/-- `True` when a list of names has no duplicates. -/
def distinctKeys : List String → Bool
  | [] => true
  | n :: rest => (!decide (n ∈ rest)) && distinctKeys rest

mutual

/-- Well-formedness of an embedded filesystem tree: at every directory the
entry names are pairwise distinct, as `os.listdir` guarantees. -/
def FSTree.wfNames : FSTree → Bool
  | .file _ => true
  | .dir es => distinctKeys (es.map Prod.fst) && wfEntriesList es
termination_by t => sizeOf t

/-- `FSTree.wfNames` for every subtree of an entry list. -/
def wfEntriesList : List (String × FSTree) → Bool
  | [] => true
  | (_, t) :: rest => t.wfNames && wfEntriesList rest
termination_by l => sizeOf l

end

/-! ## Theorems -/

/-- C1: enabling the automatic active-document context switch starts the
engine's timer with a 1000 ms interval and disabling it stops the timer;
on every tick the callback requests a refresh (`refresh_engine()`) exactly
when the host's current active document differs from the document recorded
at the previous check, and the new state always records the host's current
document. -/
theorem C1_active_document_polling :
    (∀ t : TimerState,
      set_active_document_context_switch true t = TimerState.started 1000) ∧
    (∀ t : TimerState,
      set_active_document_context_switch false t = TimerState.stopped) ∧
    (∀ (hostActive : Option Nat) (st : EngineDocState),
      (on_active_doc_timer hostActive st).2 =
        decide (st.active_doc ≠ hostActive) ∧
      (on_active_doc_timer hostActive st).1.active_doc = hostActive) := by
  refine ⟨fun _ => rfl, fun _ => rfl, fun hostActive st => ?_⟩
  by_cases h : st.active_doc = hostActive
  · simp [on_active_doc_timer, h]
  · simp [on_active_doc_timer, h]

/-- C2 counterexample: when validation fails because there is no active
document, both publish plugins raise Python's builtin `Exception`
("There is no active document opened in Krita. Publishing Canceled."), not
the pipeline framework's error type `TankError` — so the failure is not
surfaced by raising the framework's error type. -/
theorem C2_counterexample_builtin_not_tank :
    session_validate_session none =
      Except.error (RaisedError.pyException
        "There is no active document opened in Krita. Publishing Canceled.") ∧
    raisesFrameworkError (session_validate_session none) = false ∧
    session_validate_layer none =
      Except.error (RaisedError.pyException
        "There is no active document opened in Krita. Publishing Canceled.") ∧
    raisesFrameworkError (session_validate_layer none) = false :=
  ⟨rfl, rfl, rfl, rfl⟩

/-- C2 amended: whenever publish validation fails because there is no
active document, or because the active document has never been saved to a
path, the session and layer publish plugins surface the failure by raising
Python's builtin `Exception` (not the pipeline framework's error type)
with a human-readable message. -/
theorem C2_amended_validation_raises_builtin :
    (session_validate_session none =
      Except.error (RaisedError.pyException
        "There is no active document opened in Krita. Publishing Canceled.")) ∧
    (session_validate_layer none =
      Except.error (RaisedError.pyException
        "There is no active document opened in Krita. Publishing Canceled.")) ∧
    (∀ (m : Bool) (w h s e : Int) (b : Bounds),
      session_validate_session
          (some { fileName := "", modified := m, width := w, height := h,
                  fullClipRangeStartTime := s, fullClipRangeEndTime := e,
                  rootBounds := b }) =
        Except.error (RaisedError.pyException
          "The Krita session has not been saved. Please save your session before publishing.") ∧
      session_validate_layer
          (some { fileName := "", modified := m, width := w, height := h,
                  fullClipRangeStartTime := s, fullClipRangeEndTime := e,
                  rootBounds := b }) =
        Except.error (RaisedError.pyException
          "The Krita session has not been saved. Please save your session before publishing.")) :=
  ⟨rfl, rfl, fun _ _ _ _ _ _ => ⟨rfl, rfl⟩⟩

/-- C4: when the host version is older than 4.2.0 the layer export calls
`node.save` with exactly the three arguments path, document width and
document height; otherwise with the five arguments path, width, height, a
fresh `InfoObject` and the document root node's bounds. -/
theorem C4_export_layer_signature :
    ∀ (exportLayerPath : String) (active_doc : Document),
      export_layer true exportLayerPath active_doc =
        SaveCall.threeArgs exportLayerPath active_doc.width
          active_doc.height ∧
      export_layer false exportLayerPath active_doc =
        SaveCall.fiveArgs exportLayerPath active_doc.width active_doc.height
          InfoObject.mk active_doc.rootBounds :=
  fun _ _ => ⟨rfl, rfl⟩

/-- C5: `get_frame_range` always returns a pair of integers — the active
document's full clip range start and end times when a document is active,
and `(0, 0)` when none is. -/
theorem C5_get_frame_range_shape :
    (∀ d : Document,
      get_frame_range (some d) =
        (d.fullClipRangeStartTime, d.fullClipRangeEndTime)) ∧
    get_frame_range none = (0, 0) :=
  ⟨fun _ => rfl, rfl⟩

/-- C6: for the `current_path` scene operation, both the workfiles hook and
the snapshot hook return the active document's file name as a string when
a document is active, and `None` when no document is active. -/
theorem C6_current_path_operation :
    (∀ d : Document,
      execute_workfiles "current_path" (some d) = OpResult.str d.fileName) ∧
    execute_workfiles "current_path" none = OpResult.nothing ∧
    (∀ d : Document,
      execute_snapshot "current_path" (some d) = OpResult.str d.fileName) ∧
    execute_snapshot "current_path" none = OpResult.nothing := by
  refine ⟨fun d => ?_, ?_, fun d => ?_, ?_⟩ <;> simp [execute_workfiles, execute_snapshot]

/-- C10: the export body runs under batch mode `True` and its outcome —
including a raise, i.e. an `Except.error` result — propagates unchanged,
while the host's batch-mode flag is always restored on exit to the value it
had on entry, whatever the requested state and whatever flag the body
leaves behind. -/
theorem C10_batch_mode_restored :
    ∀ (state b0 : Bool) (body : Bool → Except RaisedError Unit × Bool),
      (batch_mode state b0 body).2 = b0 ∧
      batch_mode true b0 body = ((body true).1, b0) :=
  fun _ _ _ => ⟨rfl, rfl⟩

/-- C3: every `LaunchInformation` that `prepare_launch` returns carries
`SGTK_ENGINE = "tk-krita"` and `SGTK_CONTEXT` = the serialized current
context in its environment; and `start_toolkit_classic` starts an engine
only when both variables are present (and non-empty) and the context
deserializes, returning with a displayed error message and no engine
started when either variable is missing or deserialization fails. -/
theorem C3_launch_env_and_startup_gate :
    (∀ (startupPath sgtkModulePath serializedContext platform exec_path :
        String) (file_to_open : Option String) (li : LaunchInformation),
      prepare_launch startupPath sgtkModulePath serializedContext platform
          exec_path file_to_open = Except.ok li →
        lookupEnv li.environ "SGTK_ENGINE" = some ENGINE_NAME ∧
        lookupEnv li.environ "SGTK_CONTEXT" = some serializedContext) ∧
    (∀ (env : Env) (deserialize : String → Option Context),
      (lookupEnv env "SGTK_ENGINE" = none →
        start_toolkit_classic env deserialize =
          StartOutcome.noEngine
            "Shotgun: Missing required environment variable SGTK_ENGINE.") ∧
      (lookupEnv env "SGTK_CONTEXT" = none →
        ∃ m, start_toolkit_classic env deserialize =
          StartOutcome.noEngine m) ∧
      (∀ c, lookupEnv env "SGTK_CONTEXT" = some c → deserialize c = none →
        ∃ m, start_toolkit_classic env deserialize =
          StartOutcome.noEngine m) ∧
      (∀ e c,
        start_toolkit_classic env deserialize =
            StartOutcome.engineStarted e c →
          (∃ v, lookupEnv env "SGTK_ENGINE" = some v ∧ v ≠ "") ∧
          (∃ s, lookupEnv env "SGTK_CONTEXT" = some s ∧
            deserialize s = some c))) := by
  constructor
  · intro sp mp ctx platform ex fto li h
    unfold prepare_launch at h
    split at h <;> split at h <;>
      first
        | exact Except.noConfusion h
        | (simp only [Except.ok.injEq] at h; subst h;
           exact ⟨by simp [lookupEnv], by simp [lookupEnv]⟩)
  · intro env deserialize
    refine ⟨?_, ?_, ?_, ?_⟩
    · intro h
      unfold start_toolkit_classic
      rw [h]
    · intro h
      unfold start_toolkit_classic
      cases hE : lookupEnv env "SGTK_ENGINE" with
      | none => exact ⟨_, rfl⟩
      | some v =>
        dsimp only
        by_cases hv : v = ""
        · rw [if_pos hv]; exact ⟨_, rfl⟩
        · rw [if_neg hv, h]; exact ⟨_, rfl⟩
    · intro c hC hdes
      unfold start_toolkit_classic
      cases hE : lookupEnv env "SGTK_ENGINE" with
      | none => exact ⟨_, rfl⟩
      | some v =>
        dsimp only
        by_cases hv : v = ""
        · rw [if_pos hv]; exact ⟨_, rfl⟩
        · rw [if_neg hv, hC]
          dsimp only
          by_cases hc : c = ""
          · rw [if_pos hc]; exact ⟨_, rfl⟩
          · rw [if_neg hc, hdes]; exact ⟨_, rfl⟩
    · intro e c h
      unfold start_toolkit_classic at h
      cases hE : lookupEnv env "SGTK_ENGINE" with
      | none => rw [hE] at h; simp at h
      | some v =>
        rw [hE] at h
        dsimp only at h
        by_cases hv : v = ""
        · rw [if_pos hv] at h; simp at h
        · rw [if_neg hv] at h
          cases hC : lookupEnv env "SGTK_CONTEXT" with
          | none => rw [hC] at h; simp at h
          | some s =>
            rw [hC] at h
            dsimp only at h
            by_cases hs : s = ""
            · rw [if_pos hs] at h; simp at h
            · rw [if_neg hs] at h
              cases hD : deserialize s with
              | none => rw [hD] at h; simp at h
              | some ctx =>
                rw [hD] at h
                dsimp only at h
                injection h with h1 h2
                subst h1
                subst h2
                exact ⟨⟨v, rfl, hv⟩, ⟨s, rfl, hD⟩⟩

/-- C3 witness: the gate theorem applied at concrete inputs — a Windows
launch environment, the empty environment, an environment with only
`SGTK_ENGINE`, one whose context fails to deserialize, and one on which an
engine is started. -/
theorem C3_launch_env_and_startup_gate_witness :
    (lookupEnv [("SGTK_KRITA_ENGINE_STARTUP", "sp"), ("SGTK_ENGINE", "tk-krita"),
        ("SGTK_CONTEXT", "ctx"), ("SGTK_MODULE_PATH", "mp"),
        ("__COMPAT_LAYER", "")] "SGTK_ENGINE" = some ENGINE_NAME ∧
      lookupEnv [("SGTK_KRITA_ENGINE_STARTUP", "sp"), ("SGTK_ENGINE", "tk-krita"),
        ("SGTK_CONTEXT", "ctx"), ("SGTK_MODULE_PATH", "mp"),
        ("__COMPAT_LAYER", "")] "SGTK_CONTEXT" = some "ctx") ∧
    start_toolkit_classic [] (fun _ => none) =
      StartOutcome.noEngine
        "Shotgun: Missing required environment variable SGTK_ENGINE." ∧
    (∃ m, start_toolkit_classic [("SGTK_ENGINE", "tk-krita")] (fun _ => none) =
      StartOutcome.noEngine m) ∧
    (∃ m, start_toolkit_classic
        [("SGTK_ENGINE", "tk-krita"), ("SGTK_CONTEXT", "ctx")]
        (fun _ => none) = StartOutcome.noEngine m) ∧
    ((∃ v, lookupEnv [("SGTK_ENGINE", "tk-krita"), ("SGTK_CONTEXT", "ctx")]
        "SGTK_ENGINE" = some v ∧ v ≠ "") ∧
      (∃ s, lookupEnv [("SGTK_ENGINE", "tk-krita"), ("SGTK_CONTEXT", "ctx")]
        "SGTK_CONTEXT" = some s ∧
        (fun _ : String => some (Context.mk 7)) s = some (Context.mk 7))) := by
  have h := C3_launch_env_and_startup_gate
  refine ⟨?_, ?_, ?_, ?_, ?_⟩
  · exact h.1 "sp" "mp" "ctx" "win32" "exe" none
      { path := "exe",
        environ := [("SGTK_KRITA_ENGINE_STARTUP", "sp"),
          ("SGTK_ENGINE", "tk-krita"), ("SGTK_CONTEXT", "ctx"),
          ("SGTK_MODULE_PATH", "mp"), ("__COMPAT_LAYER", "")] } rfl
  · exact (h.2 [] (fun _ => none)).1 rfl
  · exact (h.2 [("SGTK_ENGINE", "tk-krita")] (fun _ => none)).2.1 rfl
  · exact (h.2 [("SGTK_ENGINE", "tk-krita"), ("SGTK_CONTEXT", "ctx")]
      (fun _ => none)).2.2.1 "ctx" rfl rfl
  · exact (h.2 [("SGTK_ENGINE", "tk-krita"), ("SGTK_CONTEXT", "ctx")]
      (fun _ => some (Context.mk 7))).2.2.2 "tk-krita" (Context.mk 7) rfl

/-- C9: on every platform other than `"win32"`, `prepare_launch` raises
`NotImplementedError` instead of returning launch information, even though
`EXECUTABLE_TEMPLATES` defines executable templates for `darwin` (macOS)
and `linux`. -/
theorem C9_prepare_launch_windows_only :
    (∀ (startupPath sgtkModulePath serializedContext platform exec_path :
        String) (file_to_open : Option String), platform ≠ "win32" →
      prepare_launch startupPath sgtkModulePath serializedContext platform
          exec_path file_to_open =
        Except.error RaisedError.notImplementedError) ∧
    List.lookup "darwin" EXECUTABLE_TEMPLATES =
      some ["$KRITA_BIN", "/Applications/krita/Krita/Krita.app"] ∧
    List.lookup "linux" EXECUTABLE_TEMPLATES =
      some ["$KRITA_BIN", "/usr/bin/krita"] := by
  refine ⟨?_, by decide, by decide⟩
  intro sp mp ctx platform ex fto h
  unfold prepare_launch
  rw [if_neg h]

/-- C9 witness: the theorem applied on the `linux` and `darwin`
platforms. -/
theorem C9_prepare_launch_windows_only_witness :
    prepare_launch "sp" "mp" "ctx" "linux" "exe" none =
      Except.error RaisedError.notImplementedError ∧
    prepare_launch "sp" "mp" "ctx" "darwin" "exe" (some "f") =
      Except.error RaisedError.notImplementedError :=
  ⟨C9_prepare_launch_windows_only.1 "sp" "mp" "ctx" "linux" "exe" none
      (by decide),
    C9_prepare_launch_windows_only.1 "sp" "mp" "ctx" "darwin" "exe" (some "f")
      (by decide)⟩

/-- C8: when no cached export path exists (`None` or empty) and the export
template resolves no path from the work-template fields, `get_export_path`
hits the default-path fallback, which evaluates the undefined name
`session_path_dir` and raises `NameError`; and every path it does return
comes from the cache or from the template — the default location under a
"layers" folder is never returned. -/
theorem C8_default_branch_raises_name_error :
    (∀ (cached resolved : Option String),
      pyTruthy cached = false → pyTruthy resolved = false →
        get_export_path cached (Except.ok resolved) =
          Except.error (RaisedError.nameError "session_path_dir")) ∧
    (∀ (cached : Option String)
        (templateResult : Except RaisedError (Option String)) (p : String),
      get_export_path cached templateResult = Except.ok p →
        (pyTruthy cached = true ∧ cached = some p) ∨
        (templateResult = Except.ok (some p) ∧ pyTruthy (some p) = true)) := by
  constructor
  · intro cached resolved hc hr
    unfold get_export_path
    rw [hc]
    simp [hr]
  · intro cached templateResult p h
    unfold get_export_path at h
    by_cases hc : pyTruthy cached = true
    · left
      rw [if_pos hc] at h
      refine ⟨hc, ?_⟩
      cases cached with
      | none => simp [pyTruthy] at hc
      | some s => simp at h; simp [h]
    · right
      rw [if_neg hc] at h
      cases templateResult with
      | error e => simp at h
      | ok resolved =>
        by_cases hr : pyTruthy resolved = true
        · simp only [hr, if_pos] at h
          cases resolved with
          | none => simp [pyTruthy] at hr
          | some s =>
            simp at h
            subst h
            exact ⟨rfl, hr⟩
        · simp only [if_neg hr] at h
          simp at h

/-- C8 witness: the theorem applied with no cached path and a template that
resolves nothing (the `NameError` branch), and with a cached path `"p"`
(the only ways a path is returned). -/
theorem C8_default_branch_raises_name_error_witness :
    get_export_path none (Except.ok none) =
      Except.error (RaisedError.nameError "session_path_dir") ∧
    ((pyTruthy (some "p") = true ∧ some "p" = some "p") ∨
      ((Except.ok none : Except RaisedError (Option String)) =
          Except.ok (some "p") ∧ pyTruthy (some "p") = true)) :=
  ⟨C8_default_branch_raises_name_error.1 none none rfl rfl,
    C8_default_branch_raises_name_error.2 (some "p") (Except.ok none) "p" rfl⟩

/-- Looking up a name absent from the front list skips it. -/
theorem lookupEntry_append_of_none (l1 l2 : List (String × FSTree))
    (n : String) (h : lookupEntry l1 n = none) :
    lookupEntry (l1 ++ l2) n = lookupEntry l2 n := by
  induction l1 with
  | nil => rfl
  | cons hd tl ih =>
    obtain ⟨k, v⟩ := hd
    by_cases hk : k = n
    · simp [lookupEntry, hk] at h
    · rw [lookupEntry, if_neg hk] at h
      rw [List.cons_append, lookupEntry, if_neg hk]
      exact ih h

/-- Writing a fresh name appends the binding at the end. -/
theorem setEntry_of_lookup_none (des : List (String × FSTree)) (n : String)
    (t : FSTree) (h : lookupEntry des n = none) :
    setEntry des n t = des ++ [(n, t)] := by
  induction des with
  | nil => rfl
  | cons hd tl ih =>
    obtain ⟨k, v⟩ := hd
    by_cases hk : k = n
    · simp [lookupEntry, hk] at h
    · rw [lookupEntry, if_neg hk] at h
      rw [setEntry, if_neg hk, ih h, List.cons_append]

/-- Strong-induction core of the fresh-copy lemmas: bounded by `fuel`,
copying a well-formed source directory into a missing destination with no
ignore callable reproduces the source tree exactly with no errors, and the
per-name loop run over a destination containing none of the source names
appends a copy of every source entry in order with no errors. -/
theorem fresh_copy_strong (fuel : Nat) :
    (∀ srcPath dstPath (es : List (String × FSTree)), sizeOf es ≤ fuel →
      FSTree.wfNames (FSTree.dir es) = true →
      ∃ acts, copytree_multi srcPath dstPath (FSTree.dir es) none none =
        Except.ok (FSTree.dir es, [], FSAct.makedirs dstPath :: acts)) ∧
    (∀ srcPath dstPath (es des : List (String × FSTree)),
      sizeOf es ≤ fuel →
      wfEntriesList es = true →
      distinctKeys (es.map Prod.fst) = true →
      (∀ n, n ∈ es.map Prod.fst → lookupEntry des n = none) →
      ∃ acts, processEntries srcPath dstPath none es [] des =
        (des ++ es, [], acts)) := by
  induction fuel using Nat.strong_induction_on with
  | _ fuel ih =>
    have hp : ∀ srcPath dstPath (es des : List (String × FSTree)),
        sizeOf es ≤ fuel →
        wfEntriesList es = true →
        distinctKeys (es.map Prod.fst) = true →
        (∀ n, n ∈ es.map Prod.fst → lookupEntry des n = none) →
        ∃ acts, processEntries srcPath dstPath none es [] des =
          (des ++ es, [], acts) := by
      intro sp dp es des hle hwf hd hdisj
      cases es with
      | nil => exact ⟨[], by simp [processEntries]⟩
      | cons hd0 rest =>
        obtain ⟨name, t⟩ := hd0
        rw [wfEntriesList, Bool.and_eq_true] at hwf
        rw [List.map_cons, distinctKeys, Bool.and_eq_true,
          Bool.not_eq_true'] at hd
        have hnamenot : name ∉ rest.map Prod.fst := of_decide_eq_false hd.1
        have hlook : lookupEntry des name = none := hdisj name (by simp)
        have hne : ∀ n, n ∈ rest.map Prod.fst → name ≠ n := by
          intro n hn hcontra
          exact hnamenot (hcontra ▸ hn)
        have hdisj2 : ∀ c : FSTree, ∀ n, n ∈ rest.map Prod.fst →
            lookupEntry (des ++ [(name, c)]) n = none := by
          intro c n hn
          rw [lookupEntry_append_of_none _ _ _ (hdisj n (by simp [hn]))]
          rw [lookupEntry, if_neg (hne n hn)]
          rfl
        cases t with
        | file d =>
          have hsize : sizeOf rest < fuel := by
            simp only [List.cons.sizeOf_spec, Prod.mk.sizeOf_spec] at hle
            omega
          obtain ⟨acts2, h2⟩ := (ih (sizeOf rest) hsize).2 sp dp rest
            (des ++ [(name, FSTree.file d)]) le_rfl hwf.2 hd.2
            (hdisj2 (FSTree.file d))
          refine ⟨FSAct.copy2 (pjoin sp name) (pjoin dp name) :: acts2, ?_⟩
          simp only [processEntries]
          rw [hlook]
          dsimp only
          rw [setEntry_of_lookup_none des name (FSTree.file d) hlook, h2]
          simp
        | dir sub =>
          have hsizes : sizeOf sub < fuel ∧ sizeOf rest < fuel := by
            simp only [List.cons.sizeOf_spec, Prod.mk.sizeOf_spec,
              FSTree.dir.sizeOf_spec] at hle
            omega
          obtain ⟨acts1, h1⟩ := (ih (sizeOf sub) hsizes.1).1 (pjoin sp name)
            (pjoin dp name) sub le_rfl hwf.1
          obtain ⟨acts2, h2⟩ := (ih (sizeOf rest) hsizes.2).2 sp dp rest
            (des ++ [(name, FSTree.dir sub)]) le_rfl hwf.2 hd.2
            (hdisj2 (FSTree.dir sub))
          refine ⟨(FSAct.makedirs (pjoin dp name) :: acts1) ++ acts2, ?_⟩
          simp only [processEntries]
          rw [hlook, h1]
          dsimp only
          rw [setEntry_of_lookup_none des name (FSTree.dir sub) hlook, h2]
          simp
    refine ⟨?_, hp⟩
    intro sp dp es hle hwf
    rw [FSTree.wfNames, Bool.and_eq_true] at hwf
    obtain ⟨acts, hacts⟩ := hp sp dp es [] hle hwf.2 hwf.1 (fun n _ => rfl)
    refine ⟨acts, ?_⟩
    simp only [copytree_multi]
    rw [hacts]
    simp

/-- Copying a well-formed source directory into a missing destination with
no ignore callable reproduces the source tree exactly: the destination
directory is created, every entry is copied recursively, and no errors are
accumulated. -/
theorem copytree_multi_fresh (srcPath dstPath : String)
    (es : List (String × FSTree))
    (hwf : FSTree.wfNames (FSTree.dir es) = true) :
    ∃ acts, copytree_multi srcPath dstPath (FSTree.dir es) none none =
      Except.ok (FSTree.dir es, [], FSAct.makedirs dstPath :: acts) :=
  (fresh_copy_strong (sizeOf es)).1 srcPath dstPath es le_rfl hwf

/-- C7: `copytree_multi` recursively copies every non-ignored entry of the
source tree into the destination tree, creating missing destination
directories (part a: a well-formed source is reproduced entry for entry
behind a `makedirs`, with no errors; part b: the walk never raises when
the destination is missing or a directory); a destination file that
already exists is left untouched — no action and no error — exactly when
its SHA-256 digest equals the source file's digest, and is deleted
(`unlink`) and re-copied when the digests differ (part c, which also
covers the plain copy of a missing destination file); per-file errors are
accumulated during the walk instead of aborting at the first failure
(part d: two failing entries both complete and both errors are collected
in order) and are raised together as a single `shutil.Error` at the end
(part e, via `copytree_multi_call`). -/
theorem C7_copytree_multi_behaviour :
    (∀ srcPath dstPath es, FSTree.wfNames (FSTree.dir es) = true →
      ∃ acts, copytree_multi srcPath dstPath (FSTree.dir es) none none =
        Except.ok (FSTree.dir es, [], FSAct.makedirs dstPath :: acts)) ∧
    (∀ srcPath dstPath es ds ign,
      (∃ r, copytree_multi srcPath dstPath (FSTree.dir es) none ign =
        Except.ok r) ∧
      (∃ r, copytree_multi srcPath dstPath (FSTree.dir es)
        (some (FSTree.dir ds)) ign = Except.ok r)) ∧
    (∀ srcPath dstPath ign name d des,
      (lookupEntry des name = none →
        processEntries srcPath dstPath ign [(name, FSTree.file d)] [] des =
          (setEntry des name (FSTree.file d), [],
            [FSAct.copy2 (pjoin srcPath name) (pjoin dstPath name)])) ∧
      (lookupEntry des name = some (FSTree.file d) →
        processEntries srcPath dstPath ign [(name, FSTree.file d)] [] des =
          (des, [], [])) ∧
      (∀ dDst, lookupEntry des name = some (FSTree.file dDst) → dDst ≠ d →
        processEntries srcPath dstPath ign [(name, FSTree.file d)] [] des =
          (setEntry des name (FSTree.file d), [],
            [FSAct.unlink (pjoin dstPath name),
             FSAct.copy2 (pjoin srcPath name) (pjoin dstPath name)]))) ∧
    (∀ srcPath dstPath n1 n2 d1 d2 s1 s2, n1 ≠ n2 →
      copytree_multi srcPath dstPath
          (FSTree.dir [(n1, FSTree.file d1), (n2, FSTree.file d2)])
          (some (FSTree.dir [(n1, FSTree.dir s1), (n2, FSTree.dir s2)]))
          none =
        Except.ok (FSTree.dir [(n1, FSTree.dir s1), (n2, FSTree.dir s2)],
          [⟨pjoin srcPath n1, pjoin dstPath n1, "IsADirectoryError: sha256"⟩,
           ⟨pjoin srcPath n2, pjoin dstPath n2,
             "IsADirectoryError: sha256"⟩],
          [])) ∧
    (∀ srcPath dstPath src dst ign t errs acts,
      copytree_multi srcPath dstPath src dst ign =
          Except.ok (t, errs, acts) →
        (errs = [] → copytree_multi_call srcPath dstPath src dst ign =
          Except.ok (t, acts)) ∧
        (errs ≠ [] → copytree_multi_call srcPath dstPath src dst ign =
          Except.error (Sum.inr errs))) := by
  refine ⟨copytree_multi_fresh, ?_, ?_, ?_, ?_⟩
  · intro srcPath dstPath es ds ign
    constructor
    · cases ign <;> (simp only [copytree_multi]; exact ⟨_, rfl⟩)
    · cases ign <;> (simp only [copytree_multi]; exact ⟨_, rfl⟩)
  · intro srcPath dstPath ign name d des
    refine ⟨?_, ?_, ?_⟩
    · intro h
      simp only [processEntries]
      rw [h]
      simp [processEntries]
    · intro h
      simp only [processEntries]
      rw [h]
      simp [processEntries]
    · intro dDst h hne
      simp only [processEntries]
      rw [h]
      simp [processEntries, hne]
  · intro srcPath dstPath n1 n2 d1 d2 s1 s2 h
    simp only [copytree_multi, processEntries, lookupEntry]
    simp [h]
  · intro srcPath dstPath src dst ign t errs acts hok
    constructor
    · intro he
      subst he
      unfold copytree_multi_call
      rw [hok]
      simp
    · intro he
      unfold copytree_multi_call
      rw [hok]
      simp [he]

/-- C7 witness: the behaviour theorem applied at concrete trees — a fresh
copy of a two-entry source with a nested directory; the three per-file
cases (missing destination file, equal digests, different digests); and a
walk over two entries that both fail, whose two errors are collected and
then raised together by `copytree_multi_call`. -/
theorem C7_copytree_multi_behaviour_witness :
    (∃ acts, copytree_multi "s" "t"
        (FSTree.dir [("a", FSTree.file 1),
          ("d", FSTree.dir [("b", FSTree.file 2)])]) none none =
      Except.ok (FSTree.dir [("a", FSTree.file 1),
        ("d", FSTree.dir [("b", FSTree.file 2)])], [],
        FSAct.makedirs "t" :: acts)) ∧
    processEntries "s" "t" none [("a", FSTree.file 5)] [] [] =
      ([("a", FSTree.file 5)], [],
        [FSAct.copy2 (pjoin "s" "a") (pjoin "t" "a")]) ∧
    processEntries "s" "t" none [("a", FSTree.file 5)] []
        [("a", FSTree.file 5)] = ([("a", FSTree.file 5)], [], []) ∧
    processEntries "s" "t" none [("a", FSTree.file 5)] []
        [("a", FSTree.file 9)] =
      ([("a", FSTree.file 5)], [],
        [FSAct.unlink (pjoin "t" "a"),
         FSAct.copy2 (pjoin "s" "a") (pjoin "t" "a")]) ∧
    copytree_multi "s" "t"
        (FSTree.dir [("x", FSTree.file 1), ("y", FSTree.file 2)])
        (some (FSTree.dir [("x", FSTree.dir []), ("y", FSTree.dir [])]))
        none =
      Except.ok (FSTree.dir [("x", FSTree.dir []), ("y", FSTree.dir [])],
        [⟨pjoin "s" "x", pjoin "t" "x", "IsADirectoryError: sha256"⟩,
         ⟨pjoin "s" "y", pjoin "t" "y", "IsADirectoryError: sha256"⟩],
        []) ∧
    copytree_multi_call "s" "t"
        (FSTree.dir [("x", FSTree.file 1), ("y", FSTree.file 2)])
        (some (FSTree.dir [("x", FSTree.dir []), ("y", FSTree.dir [])]))
        none =
      Except.error (Sum.inr
        [⟨pjoin "s" "x", pjoin "t" "x", "IsADirectoryError: sha256"⟩,
         ⟨pjoin "s" "y", pjoin "t" "y", "IsADirectoryError: sha256"⟩]) := by
  have h := C7_copytree_multi_behaviour
  have hd := h.2.2.2.1 "s" "t" "x" "y" 1 2 [] [] (by decide)
  refine ⟨?_, ?_, ?_, ?_, hd, ?_⟩
  · exact h.1 "s" "t"
      [("a", FSTree.file 1), ("d", FSTree.dir [("b", FSTree.file 2)])]
      (by simp [FSTree.wfNames, wfEntriesList, distinctKeys])
  · exact (h.2.2.1 "s" "t" none "a" 5 []).1 rfl
  · exact (h.2.2.1 "s" "t" none "a" 5 [("a", FSTree.file 5)]).2.1 rfl
  · exact (h.2.2.1 "s" "t" none "a" 5 [("a", FSTree.file 9)]).2.2 9 rfl
      (by decide)
  · exact (h.2.2.2.2 "s" "t"
      (FSTree.dir [("x", FSTree.file 1), ("y", FSTree.file 2)])
      (some (FSTree.dir [("x", FSTree.dir []), ("y", FSTree.dir [])]))
      none _ _ _ hd).2 (by simp)

end TkKrita
